import Mathlib

/-!
Verification of the mortgage pre-approval core logic
(`src/app/models.py` and the record mapper in `src/app/main.py`).

Numbers are modelled exactly: Python `float` inputs become rationals `ℚ`,
the credit score (a Python `int`) becomes `ℤ`.  Python's built-in
`round(x, 2)` is round-half-to-even at two decimal places, modelled by
`roundHalfEven` / `pyRound2`.  A Python function that can raise becomes a
Lean function into `Except String`.
-/

namespace MortgagePreapproval

/-- Round-half-to-even (banker's rounding) of a rational to an integer:
the semantics of Python's `round` on an exact value.  Values with
fractional part below one half round down, above one half round up, and an
exact half rounds to the even neighbour. -/
def roundHalfEven (q : ℚ) : ℤ :=
  let f : ℤ := ⌊q⌋
  let frac : ℚ := q - f
  if frac < 1/2 then f
  else if 1/2 < frac then f + 1
  else if f % 2 = 0 then f else f + 1

/-- Python's `round(x, 2)`: round-half-to-even at two decimal places. -/
def pyRound2 (x : ℚ) : ℚ :=
  (roundHalfEven (x * 100) : ℚ) / 100

/-- Input model `LoanApplicationRequest` from `src/app/models.py`
(field declarations only; the range constraints attached to the fields are
modelled separately by `validateRequest` / `Valid`, since a structure value
can hold any field values before validation runs). -/
structure LoanApplicationRequest where
  applicant_name : String
  monthly_income : ℚ
  monthly_debts : ℚ
  credit_score : ℤ
  loan_amount : ℚ
  deriving DecidableEq, Repr

/-- The range constraints of `LoanApplicationRequest` from
`src/app/models.py`: name length 2–100, `monthly_income > 0`,
`monthly_debts ≥ 0`, `credit_score` in 300–850, `loan_amount > 0`. -/
def LoanApplicationRequest.Valid (r : LoanApplicationRequest) : Prop :=
  2 ≤ r.applicant_name.length ∧ r.applicant_name.length ≤ 100 ∧
  0 < r.monthly_income ∧ 0 ≤ r.monthly_debts ∧
  300 ≤ r.credit_score ∧ r.credit_score ≤ 850 ∧
  0 < r.loan_amount

instance (r : LoanApplicationRequest) : Decidable r.Valid := by
  unfold LoanApplicationRequest.Valid
  infer_instance

/-- The field-level validation performed by the request contract
(`Field(..., min_length=2, max_length=100)`, `gt=0`, `ge=0`,
`ge=300, le=850` plus the equivalent `validate_credit_score` validator,
`gt=0` in `src/app/models.py`): each out-of-range field contributes its
own entry to the structured error list; an empty list means the request is
accepted. -/
def validateRequest (r : LoanApplicationRequest) : List String :=
  (if r.applicant_name.length < 2 ∨ 100 < r.applicant_name.length
    then ["applicant_name"] else []) ++
  (if r.monthly_income ≤ 0 then ["monthly_income"] else []) ++
  (if r.monthly_debts < 0 then ["monthly_debts"] else []) ++
  (if r.credit_score < 300 ∨ 850 < r.credit_score
    then ["credit_score"] else []) ++
  (if r.loan_amount ≤ 0 then ["loan_amount"] else [])

/-- Output model `LoanDecisionResponse` from `src/app/models.py`. -/
structure LoanDecisionResponse where
  decision : String
  message : String
  dti_ratio : ℚ
  credit_score : ℤ
  deriving DecidableEq, Repr

/-- `calculate_dti` from `src/app/models.py`: raises
`ValueError("Monthly income must be greater than zero")` when
`monthly_income <= 0`, otherwise returns
`round((monthly_debts / monthly_income) * 100, 2)`. -/
def calculate_dti (monthly_debts monthly_income : ℚ) : Except String ℚ :=
  if monthly_income ≤ 0 then
    .error "Monthly income must be greater than zero"
  else
    .ok (pyRound2 (monthly_debts / monthly_income * 100))

/-- Rendering of the rounded DTI value as Python's `str` renders the float
inside the f-string `f"...{dti}%..."`: the argument is always a value with
at most two decimal places; an integral value prints with a trailing `.0`,
one decimal place prints one digit, otherwise two digits print. -/
def formatDti (q : ℚ) : String :=
  let n : ℕ := (⌊q * 100⌋).toNat
  let ip := n / 100
  let fp := n % 100
  if fp = 0 then toString ip ++ ".0"
  else if fp % 10 = 0 then toString ip ++ "." ++ toString (fp / 10)
  else if fp < 10 then toString ip ++ ".0" ++ toString fp
  else toString ip ++ "." ++ toString fp

/-- `evaluate_application` from `src/app/models.py`: computes the DTI
(letting any `ValueError` from `calculate_dti` propagate), then applies
the ordered rules — credit score below 600 declines first, then DTI above
45 declines, otherwise approves. -/
def evaluate_application (application : LoanApplicationRequest) :
    Except String LoanDecisionResponse :=
  match calculate_dti application.monthly_debts application.monthly_income with
  | .error e => .error e
  | .ok dti =>
    if application.credit_score < 600 then
      .ok { decision := "declined"
            message := "Credit score of " ++ toString application.credit_score
              ++ " is below minimum requirement of 600."
            dti_ratio := dti
            credit_score := application.credit_score }
    else if dti > 45 then
      .ok { decision := "declined"
            message := "Debt-to-income ratio of " ++ formatDti dti
              ++ "% exceeds maximum of 45%."
            dti_ratio := dti
            credit_score := application.credit_score }
    else
      .ok { decision := "approved"
            message := "Applicant approved based on healthy DTI and credit score."
            dti_ratio := dti
            credit_score := application.credit_score }

/-- Database model `LoanApplication` from `src/app/models.py` (the
auto-assigned primary key is optional; the `created_at` timestamp is
supplied by the caller since the source fills it from the clock). -/
structure LoanApplication where
  id : Option ℕ := none
  applicant_name : String
  monthly_income : ℚ
  monthly_debts : ℚ
  credit_score : ℤ
  loan_amount : ℚ
  dti_ratio : ℚ
  decision : String
  decision_message : String
  created_at : ℕ
  deriving DecidableEq, Repr

/-- The record construction of `create_application` from
`src/app/main.py`: evaluate the request, then build the database row by
copying the request's fields and the decision's `dti_ratio`, `decision`
and `message` (the id stays unset until the database assigns it). -/
def create_application_record (application : LoanApplicationRequest)
    (now : ℕ) : Except String LoanApplication :=
  match evaluate_application application with
  | .error e => .error e
  | .ok decision =>
    .ok { id := none
          applicant_name := application.applicant_name
          monthly_income := application.monthly_income
          monthly_debts := application.monthly_debts
          credit_score := application.credit_score
          loan_amount := application.loan_amount
          dti_ratio := decision.dti_ratio
          decision := decision.decision
          decision_message := decision.message
          created_at := now }

/-- Helper: with positive income `evaluate_application` succeeds, and the
result carries the rounded DTI of the request's own debts/income pair and
the request's credit score. -/
theorem exists_ok_evaluate (r : LoanApplicationRequest)
    (h : ¬ r.monthly_income ≤ 0) :
    ∃ res, evaluate_application r = .ok res ∧
      res.dti_ratio = pyRound2 (r.monthly_debts / r.monthly_income * 100) ∧
      res.credit_score = r.credit_score := by
  simp only [evaluate_application, calculate_dti, if_neg h]
  split_ifs <;> exact ⟨_, rfl, rfl, rfl⟩

/-- C1: for every valid request with credit score below 600,
`evaluate_application` declines with the credit-score message (the score
substituted), whatever the DTI is — this branch is checked first, so it
wins even when the DTI also exceeds 45. -/
theorem C1_low_credit_declined (r : LoanApplicationRequest)
    (hv : r.Valid) (hc : r.credit_score < 600) :
    evaluate_application r = .ok
      { decision := "declined"
        message := "Credit score of " ++ toString r.credit_score
          ++ " is below minimum requirement of 600."
        dti_ratio := pyRound2 (r.monthly_debts / r.monthly_income * 100)
        credit_score := r.credit_score } := by
  have hinc : ¬ r.monthly_income ≤ 0 := not_le.mpr hv.2.2.1
  simp [evaluate_application, calculate_dti, hinc, hc]

/-- C1 witness at a request whose DTI (50%) also exceeds 45: the
credit-score branch still picks the message. -/
theorem C1_low_credit_declined_witness :
    evaluate_application ⟨"John Doe", 5000, 2500, 550, 250000⟩ = .ok
      { decision := "declined"
        message := "Credit score of 550 is below minimum requirement of 600."
        dti_ratio := 50
        credit_score := 550 } := by
  have h := C1_low_credit_declined ⟨"John Doe", 5000, 2500, 550, 250000⟩
    (by decide) (by decide)
  rw [h]
  simp only [Except.ok.injEq, LoanDecisionResponse.mk.injEq]
  exact ⟨by decide, by decide, by norm_num [pyRound2, roundHalfEven], by decide⟩

/-- C2: for a request with credit score at least 600 (600 itself
included), a DTI strictly above 45 declines with the DTI message, and a
DTI at most 45 (45 itself included) approves. -/
theorem C2_dti_branches (r : LoanApplicationRequest) (dti : ℚ)
    (hc : 600 ≤ r.credit_score)
    (hd : calculate_dti r.monthly_debts r.monthly_income = .ok dti) :
    (45 < dti → evaluate_application r = .ok
      { decision := "declined"
        message := "Debt-to-income ratio of " ++ formatDti dti
          ++ "% exceeds maximum of 45%."
        dti_ratio := dti
        credit_score := r.credit_score }) ∧
    (dti ≤ 45 → evaluate_application r = .ok
      { decision := "approved"
        message := "Applicant approved based on healthy DTI and credit score."
        dti_ratio := dti
        credit_score := r.credit_score }) := by
  have hc' : ¬ r.credit_score < 600 := not_lt.mpr hc
  constructor
  · intro h45
    simp [evaluate_application, hd, hc', h45]
  · intro h45
    simp [evaluate_application, hd, hc', not_lt.mpr h45]

/-- C2 witness: DTI 50 declines on the DTI branch; DTI exactly 45 with
credit score exactly 600 approves. -/
theorem C2_dti_branches_witness :
    evaluate_application ⟨"John Doe", 5000, 2500, 720, 250000⟩ = .ok
      { decision := "declined"
        message := "Debt-to-income ratio of 50.0% exceeds maximum of 45%."
        dti_ratio := 50
        credit_score := 720 } ∧
    evaluate_application ⟨"John Doe", 5000, 2250, 600, 250000⟩ = .ok
      { decision := "approved"
        message := "Applicant approved based on healthy DTI and credit score."
        dti_ratio := 45
        credit_score := 600 } := by
  constructor
  · have h := (C2_dti_branches ⟨"John Doe", 5000, 2500, 720, 250000⟩ 50
      (by decide) (by simp only [calculate_dti]; norm_num [pyRound2, roundHalfEven])).1
      (by norm_num)
    rw [h]
    have hf : ⌊(50 : ℚ) * 100⌋ = 5000 := by norm_num
    simp only [Except.ok.injEq, LoanDecisionResponse.mk.injEq, formatDti, hf]
    exact ⟨by decide, by decide, by decide, by decide⟩
  · exact (C2_dti_branches ⟨"John Doe", 5000, 2250, 600, 250000⟩ 45
      (by decide) (by simp only [calculate_dti]; norm_num [pyRound2, roundHalfEven])).2
      (by norm_num)

/-- C3: for positive income and nonnegative debts, `calculate_dti`
returns `(debts / income) × 100` rounded half-to-even at two decimal
places. -/
theorem C3_calculate_dti_spec (debts income : ℚ)
    (hi : 0 < income) (_hd : 0 ≤ debts) :
    calculate_dti debts income =
      .ok ((roundHalfEven (debts / income * 100 * 100) : ℚ) / 100) := by
  simp [calculate_dti, pyRound2, not_le.mpr hi]

/-- C3 witness: debts 1500 and income 5000 give exactly 30. -/
theorem C3_calculate_dti_spec_witness :
    calculate_dti 1500 5000 =
      .ok ((roundHalfEven (1500 / 5000 * 100 * 100) : ℚ) / 100) ∧
    ((roundHalfEven ((1500 : ℚ) / 5000 * 100 * 100) : ℚ) / 100 = 30) :=
  ⟨C3_calculate_dti_spec 1500 5000 (by norm_num) (by norm_num),
   by norm_num [roundHalfEven]⟩

/-- C4: `calculate_dti` fails exactly when income is nonpositive,
`evaluate_application` propagates such an error unchanged, and
`evaluate_application` fails in no other way. -/
theorem C4_error_iff (debts income : ℚ) (r : LoanApplicationRequest) :
    ((∃ e, calculate_dti debts income = .error e) ↔ income ≤ 0) ∧
    (∀ e, calculate_dti r.monthly_debts r.monthly_income = .error e →
        evaluate_application r = .error e) ∧
    ((∃ e, evaluate_application r = .error e) ↔ r.monthly_income ≤ 0) := by
  refine ⟨⟨?_, ?_⟩, ?_, ⟨?_, ?_⟩⟩
  · rintro ⟨e, he⟩
    by_contra h
    simp [calculate_dti, h] at he
  · intro h
    exact ⟨"Monthly income must be greater than zero",
      by simp [calculate_dti, h]⟩
  · intro e he
    simp [evaluate_application, he]
  · rintro ⟨e, he⟩
    by_contra h
    obtain ⟨res, hres, -, -⟩ := exists_ok_evaluate r h
    rw [hres] at he
    exact Except.noConfusion he
  · intro h
    exact ⟨"Monthly income must be greater than zero",
      by simp [evaluate_application, calculate_dti, h]⟩

/-- C5: on every valid request the evaluation succeeds, the result's
`dti_ratio` is exactly `calculate_dti` of the same request's debts and
income, and the request's credit score is echoed unchanged. -/
theorem C5_result_fields (r : LoanApplicationRequest) (hv : r.Valid) :
    ∃ res, evaluate_application r = .ok res ∧
      calculate_dti r.monthly_debts r.monthly_income = .ok res.dti_ratio ∧
      res.credit_score = r.credit_score := by
  have h : ¬ r.monthly_income ≤ 0 := not_le.mpr hv.2.2.1
  obtain ⟨res, hres, hdti, hcs⟩ := exists_ok_evaluate r h
  exact ⟨res, hres, by simp [calculate_dti, h, hdti], hcs⟩

/-- C5 witness at the spec's approval scenario. -/
theorem C5_result_fields_witness :
    ∃ res, evaluate_application ⟨"John Doe", 5000, 1500, 720, 250000⟩ = .ok res ∧
      calculate_dti 1500 5000 = .ok res.dti_ratio ∧
      res.credit_score = 720 :=
  C5_result_fields ⟨"John Doe", 5000, 1500, 720, 250000⟩ (by decide)

/-- On an exact half, `roundHalfEven` picks the even neighbour. -/
theorem roundHalfEven_int_add_half (k : ℤ) :
    roundHalfEven ((k : ℚ) + 1/2) = if k % 2 = 0 then k else k + 1 := by
  have hf : ⌊(k : ℚ) + 1/2⌋ = k := by
    rw [Int.floor_int_add]
    norm_num
  have hfrac : (k : ℚ) + 1/2 - (k : ℚ) = 1/2 := by ring
  simp only [roundHalfEven, hf, hfrac]
  norm_num

/-- C6: the DTI rounding is round-half-to-even: when the exact ratio falls
on a half at the second decimal place, `calculate_dti` rounds to the even
neighbour in hundredths. -/
theorem C6_half_to_even (debts income : ℚ) (k : ℤ)
    (hi : 0 < income)
    (hhalf : debts / income * 100 * 100 = (k : ℚ) + 1/2) :
    calculate_dti debts income =
      .ok (((if k % 2 = 0 then k else k + 1 : ℤ) : ℚ) / 100) := by
  have h' : ¬ income ≤ 0 := not_le.mpr hi
  simp only [calculate_dti, pyRound2, if_neg h', hhalf, roundHalfEven_int_add_half]

/-- C6 witness: the exact ratio 45.125 rounds down to the even 45.12. -/
theorem C6_half_to_even_witness :
    calculate_dti (361/8) 100 = .ok (4512/100) := by
  have h := C6_half_to_even (361/8) 100 4512 (by norm_num) (by norm_num)
  rw [h]
  norm_num

/-- C7: `evaluate_application` and `calculate_dti` are deterministic:
identical inputs give identical results. -/
theorem C7_deterministic (r₁ r₂ : LoanApplicationRequest) (d₁ i₁ d₂ i₂ : ℚ)
    (hr : r₁ = r₂) (hd : d₁ = d₂) (hi : i₁ = i₂) :
    evaluate_application r₁ = evaluate_application r₂ ∧
    calculate_dti d₁ i₁ = calculate_dti d₂ i₂ := by
  subst hr hd hi
  exact ⟨rfl, rfl⟩

/-- C7 witness at the spec's approval scenario. -/
theorem C7_deterministic_witness :
    evaluate_application ⟨"John Doe", 5000, 1500, 720, 250000⟩ =
      evaluate_application ⟨"John Doe", 5000, 1500, 720, 250000⟩ ∧
    calculate_dti 1500 5000 = calculate_dti 1500 5000 :=
  C7_deterministic _ _ _ _ _ _ rfl rfl rfl

/-- Helper: the validation error list is empty exactly on valid
requests. -/
theorem validateRequest_eq_nil_iff (r : LoanApplicationRequest) :
    validateRequest r = [] ↔ r.Valid := by
  constructor
  · intro h
    have h1 : ¬ (r.applicant_name.length < 2 ∨ 100 < r.applicant_name.length) := by
      intro hc; simp [validateRequest, hc] at h
    have h2 : ¬ r.monthly_income ≤ 0 := by
      intro hc; simp [validateRequest, hc] at h
    have h3 : ¬ r.monthly_debts < 0 := by
      intro hc; simp [validateRequest, hc] at h
    have h4 : ¬ (r.credit_score < 300 ∨ 850 < r.credit_score) := by
      intro hc; simp [validateRequest, hc] at h
    have h5 : ¬ r.loan_amount ≤ 0 := by
      intro hc; simp [validateRequest, hc] at h
    push_neg at h1 h2 h3 h4 h5
    exact ⟨h1.1, h1.2, h2, h3, h4.1, h4.2, h5⟩
  · rintro ⟨h1, h2, h3, h4, h5, h6, h7⟩
    rw [validateRequest,
      if_neg (by push_neg; exact ⟨h1, h2⟩),
      if_neg (not_le.mpr h3),
      if_neg (not_lt.mpr h4),
      if_neg (by push_neg; exact ⟨h5, h6⟩),
      if_neg (not_le.mpr h7)]
    rfl

/-- Helper: the name error appears exactly when the name length is out of
range. -/
theorem mem_validateRequest_name (r : LoanApplicationRequest) :
    "applicant_name" ∈ validateRequest r ↔
      (r.applicant_name.length < 2 ∨ 100 < r.applicant_name.length) := by
  simp only [validateRequest, List.mem_append]
  split_ifs <;> simp_all

/-- Helper: the income error appears exactly when income is nonpositive. -/
theorem mem_validateRequest_income (r : LoanApplicationRequest) :
    "monthly_income" ∈ validateRequest r ↔ r.monthly_income ≤ 0 := by
  simp only [validateRequest, List.mem_append]
  split_ifs <;> simp_all

/-- Helper: the debts error appears exactly when debts are negative. -/
theorem mem_validateRequest_debts (r : LoanApplicationRequest) :
    "monthly_debts" ∈ validateRequest r ↔ r.monthly_debts < 0 := by
  simp only [validateRequest, List.mem_append]
  split_ifs <;> simp_all

/-- Helper: the credit-score error appears exactly when the score is out
of 300–850. -/
theorem mem_validateRequest_credit (r : LoanApplicationRequest) :
    "credit_score" ∈ validateRequest r ↔
      (r.credit_score < 300 ∨ 850 < r.credit_score) := by
  simp only [validateRequest, List.mem_append]
  split_ifs <;> simp_all

/-- Helper: the loan-amount error appears exactly when the amount is
nonpositive. -/
theorem mem_validateRequest_loan (r : LoanApplicationRequest) :
    "loan_amount" ∈ validateRequest r ↔ r.loan_amount ≤ 0 := by
  simp only [validateRequest, List.mem_append]
  split_ifs <;> simp_all

/-- C8: request validation accepts exactly the in-range requests, and each
out-of-range field contributes its own entry to the structured error
list. -/
theorem C8_validation (r : LoanApplicationRequest) :
    (validateRequest r = [] ↔ r.Valid) ∧
    ("applicant_name" ∈ validateRequest r ↔
      (r.applicant_name.length < 2 ∨ 100 < r.applicant_name.length)) ∧
    ("monthly_income" ∈ validateRequest r ↔ r.monthly_income ≤ 0) ∧
    ("monthly_debts" ∈ validateRequest r ↔ r.monthly_debts < 0) ∧
    ("credit_score" ∈ validateRequest r ↔
      (r.credit_score < 300 ∨ 850 < r.credit_score)) ∧
    ("loan_amount" ∈ validateRequest r ↔ r.loan_amount ≤ 0) :=
  ⟨validateRequest_eq_nil_iff r, mem_validateRequest_name r,
   mem_validateRequest_income r, mem_validateRequest_debts r,
   mem_validateRequest_credit r, mem_validateRequest_loan r⟩

/-- C9: under the contract precondition the error branch of
`calculate_dti` is unreachable and the evaluation always succeeds. -/
theorem C9_no_failure_on_valid (r : LoanApplicationRequest) (hv : r.Valid) :
    (∀ e, calculate_dti r.monthly_debts r.monthly_income ≠ .error e) ∧
    ∃ res, evaluate_application r = .ok res := by
  have h : ¬ r.monthly_income ≤ 0 := not_le.mpr hv.2.2.1
  refine ⟨fun e => ?_, ?_⟩
  · simp [calculate_dti, h]
  · obtain ⟨res, hres, -, -⟩ := exists_ok_evaluate r h
    exact ⟨res, hres⟩

/-- C9 witness at the spec's approval scenario. -/
theorem C9_no_failure_on_valid_witness :
    (∀ e, calculate_dti 1500 5000 ≠ .error e) ∧
    ∃ res, evaluate_application ⟨"John Doe", 5000, 1500, 720, 250000⟩ = .ok res :=
  C9_no_failure_on_valid ⟨"John Doe", 5000, 1500, 720, 250000⟩ (by decide)

/-- C10: the stored record copies the request's fields unchanged, and its
decision columns are exactly what the evaluator produces on those same
stored input fields. -/
theorem C10_record_consistent (r : LoanApplicationRequest) (now : ℕ)
    (hv : r.Valid) :
    ∃ rec res,
      create_application_record r now = .ok rec ∧
      evaluate_application ⟨rec.applicant_name, rec.monthly_income,
        rec.monthly_debts, rec.credit_score, rec.loan_amount⟩ = .ok res ∧
      rec.applicant_name = r.applicant_name ∧
      rec.monthly_income = r.monthly_income ∧
      rec.monthly_debts = r.monthly_debts ∧
      rec.credit_score = r.credit_score ∧
      rec.loan_amount = r.loan_amount ∧
      rec.dti_ratio = res.dti_ratio ∧
      rec.decision = res.decision ∧
      rec.decision_message = res.message := by
  have h : ¬ r.monthly_income ≤ 0 := not_le.mpr hv.2.2.1
  obtain ⟨res, hres, -, -⟩ := exists_ok_evaluate r h
  have hcreate : create_application_record r now = .ok
      { id := none
        applicant_name := r.applicant_name
        monthly_income := r.monthly_income
        monthly_debts := r.monthly_debts
        credit_score := r.credit_score
        loan_amount := r.loan_amount
        dti_ratio := res.dti_ratio
        decision := res.decision
        decision_message := res.message
        created_at := now } := by
    simp [create_application_record, hres]
  exact ⟨_, res, hcreate, hres, rfl, rfl, rfl, rfl, rfl, rfl, rfl, rfl⟩

/-- C10 witness at the spec's approval scenario. -/
theorem C10_record_consistent_witness :
    ∃ rec res,
      create_application_record ⟨"John Doe", 5000, 1500, 720, 250000⟩ 0 = .ok rec ∧
      evaluate_application ⟨rec.applicant_name, rec.monthly_income,
        rec.monthly_debts, rec.credit_score, rec.loan_amount⟩ = .ok res ∧
      rec.applicant_name = "John Doe" ∧
      rec.monthly_income = 5000 ∧
      rec.monthly_debts = 1500 ∧
      rec.credit_score = 720 ∧
      rec.loan_amount = 250000 ∧
      rec.dti_ratio = res.dti_ratio ∧
      rec.decision = res.decision ∧
      rec.decision_message = res.message :=
  C10_record_consistent ⟨"John Doe", 5000, 1500, 720, 250000⟩ 0 (by decide)

end MortgagePreapproval
